import Mathlib

/-!
Shallow embedding of `src/src/implementations/cairo-dock-niri-toplevel.c`
(the Niri window-manager adapter of cairo-dock-core), together with
theorems checking the natural-language specification against it.

Remote Wayland objects (window handles, seats, surfaces) are opaque
pointers in the C source; they are embedded as `Nat` identifiers, with
`Option` marking possibly-NULL pointers.  Outbound effects (Wayland
protocol requests and the `niri msg` control-channel command) are
recorded as an explicit trace of `Request` values.
-/

namespace NiriToplevel

/-- One outbound effect issued by the adapter: a Wayland protocol request
on some remote object, or a spawned control-channel command line. -/
inductive Request where
  | activate (handle : Nat) (seat : Nat)
  | close (handle : Nat)
  | setMinimized (handle : Nat)
  | setMaximized (handle : Nat)
  | unsetMaximized (handle : Nat)
  | setFullscreen (handle : Nat) (output : Option Nat)
  | unsetFullscreen (handle : Nat)
  | setRectangle (handle : Nat) (surface : Nat) (x y w h : Int)
  | spawnCommand (cmd : String)
  | destroyHandle (handle : Nat)
  deriving Repr, DecidableEq

/-- The four state flags of the wlr-foreign-toplevel protocol, with the
numeric values of `enum zwlr_foreign_toplevel_handle_v1_state` from the
generated protocol header (maximized = 0, minimized = 1, activated = 2,
fullscreen = 3).  Only their distinctness matters to the claims. -/
def ZWLR_FOREIGN_TOPLEVEL_HANDLE_V1_STATE_MAXIMIZED : Nat := 0

def ZWLR_FOREIGN_TOPLEVEL_HANDLE_V1_STATE_MINIMIZED : Nat := 1

def ZWLR_FOREIGN_TOPLEVEL_HANDLE_V1_STATE_ACTIVATED : Nat := 2

def ZWLR_FOREIGN_TOPLEVEL_HANDLE_V1_STATE_FULLSCREEN : Nat := 3

/-- Modelled from the spec: `GLDI_DESKTOP_ALL`, the core's "show on all
desktops" sentinel value for a window's desktop assignment (the core
header defining it is not under src/). -/
def GLDI_DESKTOP_ALL : Int := -1

/-- The window geometry rectangle (`actor->windowGeometry`). -/
structure WindowGeometry where
  x : Int
  y : Int
  width : Int
  height : Int
  deriving Repr, DecidableEq

/-- The adapter's local mirror of one toplevel: `GldiWaylandWindowActor`
(embedding the `GldiWindowActor` fields the source touches).  `handle`
and `parent` are possibly-NULL pointers to remote toplevel handles. -/
structure GldiWaylandWindowActor where
  handle : Option Nat
  parent : Option Nat
  activated : Bool
  maximized : Bool
  minimized : Bool
  fullscreen : Bool
  title : Option String
  appId : Option String
  iNumDesktop : Int
  windowGeometry : WindowGeometry
  deriving Repr, DecidableEq

/-- Modelled from the spec: destination-model callback
`gldi_wayland_wm_activated` (defined in cairo-dock-wayland-wm.c, not
under src/) records the activated boolean on the window shadow and
notifies the destination model. -/
def gldi_wayland_wm_activated (w : GldiWaylandWindowActor) (b : Bool) :
    GldiWaylandWindowActor :=
  { w with activated := b }

/-- Modelled from the spec: destination-model callback
`gldi_wayland_wm_maximized_changed` records the maximized boolean on the
window shadow and notifies the destination model. -/
def gldi_wayland_wm_maximized_changed (w : GldiWaylandWindowActor) (b : Bool) :
    GldiWaylandWindowActor :=
  { w with maximized := b }

/-- Modelled from the spec: destination-model callback
`gldi_wayland_wm_minimized_changed` records the minimized boolean on the
window shadow and notifies the destination model. -/
def gldi_wayland_wm_minimized_changed (w : GldiWaylandWindowActor) (b : Bool) :
    GldiWaylandWindowActor :=
  { w with minimized := b }

/-- Modelled from the spec: destination-model callback
`gldi_wayland_wm_fullscreen_changed` records the fullscreen boolean on
the window shadow and notifies the destination model. -/
def gldi_wayland_wm_fullscreen_changed (w : GldiWaylandWindowActor) (b : Bool) :
    GldiWaylandWindowActor :=
  { w with fullscreen := b }

/-- The flag-decoding loop of `_toplevel_state_cb`: walk the `wl_array`
of `uint32_t` words, switching each word against the four known state
values; the four accumulator booleans start FALSE in the callback. -/
def stateFlagsLoop (words : List Nat) (activated maximized minimized fullscreen : Bool) :
    Bool × Bool × Bool × Bool :=
  match words with
  | [] => (activated, maximized, minimized, fullscreen)
  | wd :: rest =>
    if wd = ZWLR_FOREIGN_TOPLEVEL_HANDLE_V1_STATE_ACTIVATED then
      stateFlagsLoop rest true maximized minimized fullscreen
    else if wd = ZWLR_FOREIGN_TOPLEVEL_HANDLE_V1_STATE_MAXIMIZED then
      stateFlagsLoop rest activated true minimized fullscreen
    else if wd = ZWLR_FOREIGN_TOPLEVEL_HANDLE_V1_STATE_MINIMIZED then
      stateFlagsLoop rest activated maximized true fullscreen
    else if wd = ZWLR_FOREIGN_TOPLEVEL_HANDLE_V1_STATE_FULLSCREEN then
      stateFlagsLoop rest activated maximized minimized true
    else
      stateFlagsLoop rest activated maximized minimized fullscreen

/-- `_toplevel_state_cb`: on a state-bitset event, start the four
booleans at FALSE, decode every word of the array, then store all four
booleans through the destination-model callbacks.  `data` is the user
data pointer (the actor), checked for NULL first. -/
def _toplevel_state_cb (data : Option GldiWaylandWindowActor) (state : List Nat) :
    Option GldiWaylandWindowActor :=
  match data with
  | none => none
  | some wactor =>
    let f := stateFlagsLoop state false false false false
    let wactor := gldi_wayland_wm_activated wactor f.1
    let wactor := gldi_wayland_wm_maximized_changed wactor f.2.1
    let wactor := gldi_wayland_wm_minimized_changed wactor f.2.2.1
    let wactor := gldi_wayland_wm_fullscreen_changed wactor f.2.2.2
    some wactor

lemma stateFlagsLoop_spec (words : List Nat) (a m mi f : Bool) :
    stateFlagsLoop words a m mi f =
      ((a || words.contains ZWLR_FOREIGN_TOPLEVEL_HANDLE_V1_STATE_ACTIVATED),
       (m || words.contains ZWLR_FOREIGN_TOPLEVEL_HANDLE_V1_STATE_MAXIMIZED),
       (mi || words.contains ZWLR_FOREIGN_TOPLEVEL_HANDLE_V1_STATE_MINIMIZED),
       (f || words.contains ZWLR_FOREIGN_TOPLEVEL_HANDLE_V1_STATE_FULLSCREEN)) := by
  induction words generalizing a m mi f with
  | nil => simp [stateFlagsLoop]
  | cons wd rest ih =>
    by_cases h2 : wd = ZWLR_FOREIGN_TOPLEVEL_HANDLE_V1_STATE_ACTIVATED
    · subst h2
      simp [stateFlagsLoop, ih, List.contains_cons,
        ZWLR_FOREIGN_TOPLEVEL_HANDLE_V1_STATE_ACTIVATED,
        ZWLR_FOREIGN_TOPLEVEL_HANDLE_V1_STATE_MAXIMIZED,
        ZWLR_FOREIGN_TOPLEVEL_HANDLE_V1_STATE_MINIMIZED,
        ZWLR_FOREIGN_TOPLEVEL_HANDLE_V1_STATE_FULLSCREEN]
    · by_cases h0 : wd = ZWLR_FOREIGN_TOPLEVEL_HANDLE_V1_STATE_MAXIMIZED
      · subst h0
        simp [stateFlagsLoop, ih, List.contains_cons,
          ZWLR_FOREIGN_TOPLEVEL_HANDLE_V1_STATE_ACTIVATED,
          ZWLR_FOREIGN_TOPLEVEL_HANDLE_V1_STATE_MAXIMIZED,
          ZWLR_FOREIGN_TOPLEVEL_HANDLE_V1_STATE_MINIMIZED,
          ZWLR_FOREIGN_TOPLEVEL_HANDLE_V1_STATE_FULLSCREEN]
      · by_cases h1 : wd = ZWLR_FOREIGN_TOPLEVEL_HANDLE_V1_STATE_MINIMIZED
        · subst h1
          simp [stateFlagsLoop, ih, List.contains_cons,
            ZWLR_FOREIGN_TOPLEVEL_HANDLE_V1_STATE_ACTIVATED,
            ZWLR_FOREIGN_TOPLEVEL_HANDLE_V1_STATE_MAXIMIZED,
            ZWLR_FOREIGN_TOPLEVEL_HANDLE_V1_STATE_MINIMIZED,
            ZWLR_FOREIGN_TOPLEVEL_HANDLE_V1_STATE_FULLSCREEN]
        · by_cases h3 : wd = ZWLR_FOREIGN_TOPLEVEL_HANDLE_V1_STATE_FULLSCREEN
          · subst h3
            simp [stateFlagsLoop, ih, List.contains_cons,
              ZWLR_FOREIGN_TOPLEVEL_HANDLE_V1_STATE_ACTIVATED,
              ZWLR_FOREIGN_TOPLEVEL_HANDLE_V1_STATE_MAXIMIZED,
              ZWLR_FOREIGN_TOPLEVEL_HANDLE_V1_STATE_MINIMIZED,
              ZWLR_FOREIGN_TOPLEVEL_HANDLE_V1_STATE_FULLSCREEN]
          · rw [stateFlagsLoop]
            simp only [if_neg h2, if_neg h0, if_neg h1, if_neg h3]
            rw [ih]
            simp [List.contains_cons, Ne.symm h0, Ne.symm h1, Ne.symm h2, Ne.symm h3]

lemma toplevel_state_cb_some (w : GldiWaylandWindowActor) (state : List Nat) :
    _toplevel_state_cb (some w) state =
      some { w with
        activated := state.contains ZWLR_FOREIGN_TOPLEVEL_HANDLE_V1_STATE_ACTIVATED,
        maximized := state.contains ZWLR_FOREIGN_TOPLEVEL_HANDLE_V1_STATE_MAXIMIZED,
        minimized := state.contains ZWLR_FOREIGN_TOPLEVEL_HANDLE_V1_STATE_MINIMIZED,
        fullscreen := state.contains ZWLR_FOREIGN_TOPLEVEL_HANDLE_V1_STATE_FULLSCREEN } := by
  simp [_toplevel_state_cb, stateFlagsLoop_spec, gldi_wayland_wm_activated,
    gldi_wayland_wm_maximized_changed, gldi_wayland_wm_minimized_changed,
    gldi_wayland_wm_fullscreen_changed]

/-! ## Niri IPC helpers and the window-manager backend operations -/

def NIRI_IPC_CMD : String := "niri"

/-- `_niri_ipc_action`: build the command line
`<tool> msg action <action-name> [<argument>]` and spawn it
asynchronously (fire and forget; a spawn failure is only logged). -/
def _niri_ipc_action (action : String) (arg : Option String) : List Request :=
  let command : String :=
    match arg with
    | some a => NIRI_IPC_CMD ++ " msg action " ++ action ++ " " ++ a
    | none => NIRI_IPC_CMD ++ " msg action " ++ action
  [Request.spawnCommand command]

/-- `_niri_move_window_to_workspace`: after the NULL checks on the actor
and its handle, activate the window on the current input seat, then send
the `move-window-to-workspace` IPC command with the 1-based index
(`workspace_idx + 1` printed with `%d`).  `seat` is the current input
seat obtained from the default GDK display. -/
def _niri_move_window_to_workspace (seat : Nat)
    (wactor : Option GldiWaylandWindowActor) (workspace_idx : Int) : List Request :=
  match wactor with
  | none => []
  | some w =>
    match w.handle with
    | none => []
    | some h =>
      Request.activate h seat ::
        _niri_ipc_action "move-window-to-workspace" (some (toString (workspace_idx + 1)))

/-- `_show`: activate the handle on the current input seat.  The actor
and its handle are dereferenced without NULL checks; `none` marks the
fault. -/
def _show (seat : Nat) (actor : Option GldiWaylandWindowActor) :
    Option (List Request) :=
  match actor with
  | none => none
  | some w =>
    match w.handle with
    | none => none
    | some h => some [Request.activate h seat]

/-- `_close`: issue a close request on the handle (no NULL checks). -/
def _close (actor : Option GldiWaylandWindowActor) : Option (List Request) :=
  match actor with
  | none => none
  | some w =>
    match w.handle with
    | none => none
    | some h => some [Request.close h]

/-- `_minimize`: issue a set-minimized request on the handle. -/
def _minimize (actor : Option GldiWaylandWindowActor) : Option (List Request) :=
  match actor with
  | none => none
  | some w =>
    match w.handle with
    | none => none
    | some h => some [Request.setMinimized h]

/-- `_maximize`: issue set-maximized or unset-maximized depending on the
boolean argument. -/
def _maximize (actor : Option GldiWaylandWindowActor) (bMaximize : Bool) :
    Option (List Request) :=
  match actor with
  | none => none
  | some w =>
    match w.handle with
    | none => none
    | some h => some [if bMaximize then Request.setMaximized h else Request.unsetMaximized h]

/-- `_set_fullscreen`: issue set-fullscreen with a NULL output
("current output") or unset-fullscreen. -/
def _set_fullscreen (actor : Option GldiWaylandWindowActor) (bFullScreen : Bool) :
    Option (List Request) :=
  match actor with
  | none => none
  | some w =>
    match w.handle with
    | none => none
    | some h => some [if bFullScreen then Request.setFullscreen h none else Request.unsetFullscreen h]

/-- `_move_to_nth_desktop`: delegate to the hybrid IPC approach,
dropping the `x` and `y` arguments. -/
def _move_to_nth_desktop (seat : Nat) (actor : Option GldiWaylandWindowActor)
    (iNumDesktop : Int) (x y : Int) : List Request :=
  _niri_move_window_to_workspace seat actor iNumDesktop

/-- `_get_transient_for`: pure lookup of the weak parent back-reference;
`userData` is the per-handle user-data table set up at toplevel creation
(`zwlr_foreign_toplevel_handle_v1_get_user_data`).  The outer `Option`
marks the unchecked dereference of the actor pointer. -/
def _get_transient_for (userData : Nat → Option GldiWaylandWindowActor)
    (actor : Option GldiWaylandWindowActor) :
    Option (Option GldiWaylandWindowActor) :=
  match actor with
  | none => none
  | some w =>
    match w.parent with
    | none => some none
    | some p => some (userData p)

/-- A GDK window, which may or may not expose a Wayland surface. -/
structure GdkWindow where
  wlSurface : Option Nat
  deriving Repr, DecidableEq

/-- A dock container (`GldiContainer`), which may or may not have a GDK
window. -/
structure GldiContainer where
  gdkWindow : Option GdkWindow
  deriving Repr, DecidableEq

/-- `_set_thumbnail_area`: silently return when the actor or container
is NULL, when the container has no GDK window, or when the window yields
no Wayland surface; otherwise issue one set-rectangle request on the
actor's handle with the given coordinates (the handle itself is
dereferenced without a NULL check; `none` marks that fault). -/
def _set_thumbnail_area (actor : Option GldiWaylandWindowActor)
    (pContainer : Option GldiContainer) (x y w h : Int) : Option (List Request) :=
  match actor, pContainer with
  | some wactor, some c =>
    match c.gdkWindow with
    | none => some []
    | some win =>
      match win.wlSurface with
      | none => some []
      | some surface =>
        match wactor.handle with
        | none => none
        | some hdl => some [Request.setRectangle hdl surface x y w h]
  | _, _ => some []

/-- A store through a possibly-NULL out-pointer: `provided` says whether
the caller passed a non-NULL pointer; storing through a NULL pointer is
the error case. -/
def writeThrough (provided : Bool) (v : Bool) : Except Unit (Option Bool) :=
  if provided then Except.ok (some v) else Except.error ()

/-- `_can_minimize_maximize_close`: store TRUE through all three
out-pointers unconditionally (no NULL checks on the pointers). -/
def _can_minimize_maximize_close (bCanMinimize bCanMaximize bCanClose : Bool) :
    Except Unit (Option Bool × Option Bool × Option Bool) := do
  let m ← writeThrough bCanMinimize true
  let x ← writeThrough bCanMaximize true
  let c ← writeThrough bCanClose true
  return (m, x, c)

/-- `_get_supported_actions`: store TRUE for fullscreen and FALSE for
sticky, below, above and kill, each store guarded by a NULL check on its
out-pointer (`some v` = value stored, `none` = pointer absent, nothing
written). -/
def _get_supported_actions (bCanFullscreen bCanSticky bCanBelow bCanAbove bCanKill : Bool) :
    Option Bool × Option Bool × Option Bool × Option Bool × Option Bool :=
  (if bCanFullscreen then some true else none,
   if bCanSticky then some false else none,
   if bCanBelow then some false else none,
   if bCanAbove then some false else none,
   if bCanKill then some false else none)

/-! ## Toplevel-manager callback: new toplevel announced -/

/-- Side effects of the new-toplevel callback, in program order; each
carries the value of the actor at the moment the call is made. -/
inductive ManagerEffect where
  | setUserData (handle : Nat) (wactor : GldiWaylandWindowActor)
  | addListener (handle : Nat) (wactor : GldiWaylandWindowActor)
  deriving Repr, DecidableEq

/-- Modelled from the spec: `gldi_wayland_wm_new_toplevel` (defined in
cairo-dock-wayland-wm.c, not under src/) allocates a fresh Window Shadow
correlated 1:1 with the given Window Handle.  The other fields of the
fresh shadow are not specified, so they are taken as the parameter
`fresh`. -/
def gldi_wayland_wm_new_toplevel (fresh : GldiWaylandWindowActor) (handle : Nat) :
    GldiWaylandWindowActor :=
  { fresh with handle := some handle }

/-- `_toplevel_manager_toplevel`: on a new-toplevel event, allocate the
shadow, attach it as the handle's user data, default the desktop
assignment to "all desktops", seed the placeholder geometry at the
screen center with width = height = 1, and only then subscribe the
handle's event listener.  `screenW`/`screenH` are the values of
`cairo_dock_get_screen_width/height(0)`. -/
def _toplevel_manager_toplevel (fresh : GldiWaylandWindowActor)
    (screenW screenH : Nat) (handle : Nat) :
    GldiWaylandWindowActor × List ManagerEffect :=
  let wactor := gldi_wayland_wm_new_toplevel fresh handle
  let eff0 := ManagerEffect.setUserData handle wactor
  let wactor := { wactor with iNumDesktop := GLDI_DESKTOP_ALL }
  let wactor := { wactor with windowGeometry.x := ((screenW / 2 : Nat) : Int) }
  let wactor := { wactor with windowGeometry.y := ((screenH / 2 : Nat) : Int) }
  let wactor := { wactor with windowGeometry.width := 1 }
  let wactor := { wactor with windowGeometry.height := 1 }
  (wactor, [eff0, ManagerEffect.addListener handle wactor])

/-! ## Protocol binder and backend registration -/

/-- Interface name of the wlr foreign-toplevel manager global (the
`.name` field of the generated interface descriptor). -/
def zwlr_foreign_toplevel_manager_v1_interface_name : String :=
  "zwlr_foreign_toplevel_manager_v1"

/-- Interface name of the ext-workspace manager global. -/
def ext_workspace_manager_v1_interface_name : String :=
  "ext_workspace_manager_v1"

/-- Locally supported maximum version of the wlr foreign-toplevel
protocol (the `.version` field of the generated interface descriptor,
not under src/; the wlr protocol is at version 3).  Only its role as the
second argument of `min` matters to the claims. -/
def zwlr_foreign_toplevel_manager_v1_interface_version : Nat := 3

/-- Locally supported maximum version of the ext-workspace protocol
(version 1). -/
def ext_workspace_manager_v1_interface_version : Nat := 1

/-- The module's process-wide binder state: the static variables
`toplevel_id/ver`, `workspace_id/ver`, `toplevel_found`,
`workspace_found`. -/
structure BinderState where
  toplevel_id : Nat
  toplevel_ver : Nat
  workspace_id : Nat
  workspace_ver : Nat
  toplevel_found : Bool
  workspace_found : Bool
  deriving Repr, DecidableEq

/-- The initial values of the static binder variables. -/
def initialBinderState : BinderState :=
  { toplevel_id := 0, toplevel_ver := 0, workspace_id := 0, workspace_ver := 0,
    toplevel_found := false, workspace_found := false }

/-- `gldi_niri_toplevel_match_protocol`: compare the advertised
interface name against the two known protocol names; on a match record
the registry id and the advertised version and set the found-flag,
returning TRUE; otherwise return FALSE and leave the state unchanged. -/
def gldi_niri_toplevel_match_protocol (st : BinderState) (id : Nat)
    (interface : String) (version : Nat) : Bool × BinderState :=
  if interface = zwlr_foreign_toplevel_manager_v1_interface_name then
    (true, { st with toplevel_found := true, toplevel_id := id, toplevel_ver := version })
  else if interface = ext_workspace_manager_v1_interface_name then
    (true, { st with workspace_found := true, workspace_id := id, workspace_ver := version })
  else
    (false, st)

/-- A token standing for a function pointer into a collaborator outside
this source file, stored in the backend descriptor. -/
inductive ExternalFn where
  | getActiveWindow
  | pickWindow
  deriving Repr, DecidableEq

/-- The window-manager backend descriptor (`GldiWindowManagerBackend`)
assembled by `gldi_niri_toplevel_try_init`: the operation table, the
capability flags and the backend name.  The field `show_` carries a
trailing underscore because `show` is reserved in Lean. -/
structure GldiWindowManagerBackend where
  get_active_window : ExternalFn
  move_to_nth_desktop : Nat → Option GldiWaylandWindowActor → Int → Int → Int → List Request
  show_ : Nat → Option GldiWaylandWindowActor → Option (List Request)
  close : Option GldiWaylandWindowActor → Option (List Request)
  minimize : Option GldiWaylandWindowActor → Option (List Request)
  maximize : Option GldiWaylandWindowActor → Bool → Option (List Request)
  set_fullscreen : Option GldiWaylandWindowActor → Bool → Option (List Request)
  set_thumbnail_area : Option GldiWaylandWindowActor → Option GldiContainer → Int → Int → Int → Int → Option (List Request)
  get_transient_for : (Nat → Option GldiWaylandWindowActor) → Option GldiWaylandWindowActor → Option (Option GldiWaylandWindowActor)
  can_minimize_maximize_close : Bool → Bool → Bool → Except Unit (Option Bool × Option Bool × Option Bool)
  pick_window : ExternalFn
  get_supported_actions : Bool → Bool → Bool → Bool → Bool → Option Bool × Option Bool × Option Bool × Option Bool × Option Bool
  flags : Nat
  name : String

/-- Modelled from the spec: `GLDI_WM_*` capability-flag bits from the
core's windows-manager header (not under src/); three distinct bits. -/
def GLDI_WM_NO_VIEWPORT_OVERLAP : Nat := 1

/-- Modelled from the spec: see `GLDI_WM_NO_VIEWPORT_OVERLAP`. -/
def GLDI_WM_GEOM_REL_TO_VIEWPORT : Nat := 2

/-- Modelled from the spec: see `GLDI_WM_NO_VIEWPORT_OVERLAP`. -/
def GLDI_WM_HAVE_WORKSPACES : Nat := 4

/-- What `gldi_niri_toplevel_try_init` did: its return value, which
protocol objects it bound (registry id and version passed to
`wl_registry_bind`), whether the toplevel listener was added, whether
the workspace manager was forwarded to the ext-workspace collaborator,
and the backend descriptor registered with the dock (if any). -/
structure InitOutcome where
  success : Bool
  toplevelBound : Option (Nat × Nat)
  workspaceBound : Option (Nat × Nat)
  toplevelListenerAdded : Bool
  workspaceManagerRegistered : Bool
  registeredBackend : Option GldiWindowManagerBackend

/-- `gldi_niri_toplevel_try_init`: fail at once when the toplevel
manager was never advertised; otherwise clamp the recorded versions with
`MIN(recorded, locally supported)` and bind each protocol with the
clamped version (`wl_registry_bind` is an external libwayland call, not
under src/, and is modelled from the spec as producing a non-NULL bound
handle), start listening, forward the workspace manager to the
ext-workspace collaborator when bound, and register the backend
descriptor whose workspace flag is gated on the workspace manager. -/
def gldi_niri_toplevel_try_init (st : BinderState) : InitOutcome × BinderState :=
  if !st.toplevel_found then
    ({ success := false, toplevelBound := none, workspaceBound := none,
       toplevelListenerAdded := false, workspaceManagerRegistered := false,
       registeredBackend := none }, st)
  else
    let st := { st with
      toplevel_ver := min st.toplevel_ver zwlr_foreign_toplevel_manager_v1_interface_version }
    let s_ptoplevel_manager : Option (Nat × Nat) := some (st.toplevel_id, st.toplevel_ver)
    let (st, s_pworkspace_manager) :=
      if st.workspace_found then
        let st := { st with
          workspace_ver := min st.workspace_ver ext_workspace_manager_v1_interface_version }
        (st, some (st.workspace_id, st.workspace_ver))
      else
        (st, (none : Option (Nat × Nat)))
    let flags := GLDI_WM_NO_VIEWPORT_OVERLAP ||| GLDI_WM_GEOM_REL_TO_VIEWPORT
    let flags := if s_pworkspace_manager.isSome then flags ||| GLDI_WM_HAVE_WORKSPACES else flags
    let wmb : GldiWindowManagerBackend :=
      { get_active_window := ExternalFn.getActiveWindow
        move_to_nth_desktop := _move_to_nth_desktop
        show_ := _show
        close := _close
        minimize := _minimize
        maximize := _maximize
        set_fullscreen := _set_fullscreen
        set_thumbnail_area := _set_thumbnail_area
        get_transient_for := _get_transient_for
        can_minimize_maximize_close := _can_minimize_maximize_close
        pick_window := ExternalFn.pickWindow
        get_supported_actions := _get_supported_actions
        flags := flags
        name := "Niri" }
    ({ success := true, toplevelBound := s_ptoplevel_manager,
       workspaceBound := s_pworkspace_manager, toplevelListenerAdded := true,
       workspaceManagerRegistered := s_pworkspace_manager.isSome,
       registeredBackend := some wmb }, st)

/-- The operation table of a backend descriptor, without the flags and
the name: the function-pointer fields set by `gldi_niri_toplevel_try_init`. -/
def backendOps (b : GldiWindowManagerBackend) :=
  (b.get_active_window, b.move_to_nth_desktop, b.show_, b.close, b.minimize,
   b.maximize, b.set_fullscreen, b.set_thumbnail_area, b.get_transient_for,
   b.can_minimize_maximize_close, b.pick_window, b.get_supported_actions)

/-! ## Concrete values used by the witnesses -/

/-- A concrete window actor (handle 42) used to evaluate the operations
on explicit inputs. -/
def exampleActor : GldiWaylandWindowActor :=
  { handle := some 42, parent := none, activated := false, maximized := false,
    minimized := false, fullscreen := false, title := none, appId := none,
    iNumDesktop := 0, windowGeometry := { x := 0, y := 0, width := 1, height := 1 } }

/-! ## Claims -/

lemma foldl_state_cb_some (evs : List (List Nat)) (s : GldiWaylandWindowActor) :
    ∃ t, evs.foldl _toplevel_state_cb (some s) = some t := by
  induction evs generalizing s with
  | nil => exact ⟨s, rfl⟩
  | cons e rest ih =>
    rw [List.foldl_cons, toplevel_state_cb_some]
    exact ih _

/-- C1: for every sequence of state-bitset events on one handle, after
processing the last event the shadow's four booleans equal exactly the
set of flags present in that event — each flag present sets its boolean,
each flag absent clears it, regardless of earlier events. -/
theorem claim_C1_state_is_total_overwrite (s : GldiWaylandWindowActor)
    (evs : List (List Nat)) (e : List Nat) :
    ∃ t, (evs ++ [e]).foldl _toplevel_state_cb (some s) = some t ∧
      t.activated = e.contains ZWLR_FOREIGN_TOPLEVEL_HANDLE_V1_STATE_ACTIVATED ∧
      t.maximized = e.contains ZWLR_FOREIGN_TOPLEVEL_HANDLE_V1_STATE_MAXIMIZED ∧
      t.minimized = e.contains ZWLR_FOREIGN_TOPLEVEL_HANDLE_V1_STATE_MINIMIZED ∧
      t.fullscreen = e.contains ZWLR_FOREIGN_TOPLEVEL_HANDLE_V1_STATE_FULLSCREEN := by
  obtain ⟨u, hu⟩ := foldl_state_cb_some evs s
  rw [List.foldl_append, hu, List.foldl_cons, List.foldl_nil, toplevel_state_cb_some]
  exact ⟨_, rfl, rfl, rfl, rfl, rfl⟩

/-- C2: for every actor with a non-null handle and every workspace index
n, move-to-nth-desktop issues exactly one activate request on the handle
with the current seat, followed by exactly one control-channel command
`niri msg action move-window-to-workspace <n+1>`. -/
theorem claim_C2_move_to_workspace_requests (seat : Nat)
    (w : GldiWaylandWindowActor) (hdl : Nat) (hh : w.handle = some hdl)
    (n x y : Int) :
    _move_to_nth_desktop seat (some w) n x y =
      [Request.activate hdl seat,
       Request.spawnCommand
         ("niri msg action move-window-to-workspace " ++ toString (n + 1))] := by
  have hs : (NIRI_IPC_CMD ++ " msg action " ++ "move-window-to-workspace" ++ " ") =
      "niri msg action move-window-to-workspace " := rfl
  simp only [_move_to_nth_desktop, _niri_move_window_to_workspace, hh,
    _niri_ipc_action, ← hs]

/-- C2 witness: with actor handle 42, seat 7 and 0-based index 2, the
dispatched command argument is 3. -/
theorem claim_C2_move_to_workspace_requests_witness :
    exampleActor.handle = some 42 ∧
    _move_to_nth_desktop 7 (some exampleActor) 2 5 6 =
      [Request.activate 42 7,
       Request.spawnCommand "niri msg action move-window-to-workspace 3"] :=
  ⟨rfl, (claim_C2_move_to_workspace_requests 7 exampleActor 42 rfl 2 5 6).trans (by decide)⟩

/-- C3: when the mandatory toplevel-management protocol was never
advertised, try-init returns FALSE and no backend descriptor is
registered (and nothing is bound or forwarded). -/
theorem claim_C3_no_toplevel_means_failure (st : BinderState)
    (h : st.toplevel_found = false) :
    (gldi_niri_toplevel_try_init st).1.success = false ∧
    (gldi_niri_toplevel_try_init st).1.registeredBackend = none ∧
    (gldi_niri_toplevel_try_init st).1.toplevelBound = none ∧
    (gldi_niri_toplevel_try_init st).1.workspaceManagerRegistered = false := by
  simp [gldi_niri_toplevel_try_init, h]

/-- C3 witness: on the initial binder state (nothing advertised),
try-init fails without registering a backend. -/
theorem claim_C3_no_toplevel_means_failure_witness :
    initialBinderState.toplevel_found = false ∧
    ((gldi_niri_toplevel_try_init initialBinderState).1.success = false ∧
     (gldi_niri_toplevel_try_init initialBinderState).1.registeredBackend = none ∧
     (gldi_niri_toplevel_try_init initialBinderState).1.toplevelBound = none ∧
     (gldi_niri_toplevel_try_init initialBinderState).1.workspaceManagerRegistered = false) :=
  ⟨rfl, claim_C3_no_toplevel_means_failure initialBinderState rfl⟩

/-- C4: every new-toplevel event produces a shadow whose desktop
assignment is "all desktops" and whose geometry is width = height = 1 at
the screen center, already in place in the value subscribed to the
handle's event listener (the listener subscription is the last effect). -/
theorem claim_C4_new_toplevel_defaults (fresh : GldiWaylandWindowActor)
    (screenW screenH handle : Nat) :
    (_toplevel_manager_toplevel fresh screenW screenH handle).1.iNumDesktop = GLDI_DESKTOP_ALL ∧
    (_toplevel_manager_toplevel fresh screenW screenH handle).1.windowGeometry.width = 1 ∧
    (_toplevel_manager_toplevel fresh screenW screenH handle).1.windowGeometry.height = 1 ∧
    (_toplevel_manager_toplevel fresh screenW screenH handle).1.windowGeometry.x = ((screenW / 2 : Nat) : Int) ∧
    (_toplevel_manager_toplevel fresh screenW screenH handle).1.windowGeometry.y = ((screenH / 2 : Nat) : Int) ∧
    (_toplevel_manager_toplevel fresh screenW screenH handle).2 =
      [ManagerEffect.setUserData handle (gldi_wayland_wm_new_toplevel fresh handle),
       ManagerEffect.addListener handle (_toplevel_manager_toplevel fresh screenW screenH handle).1] := by
  refine ⟨rfl, rfl, rfl, rfl, rfl, rfl⟩

/-- C5: when the workspace protocol is absent but the toplevel protocol
is present, try-init still succeeds, the registered descriptor has the
workspaces flag cleared while the other two flags are set, the workspace
collaborator is never invoked, and the registered operation table is
identical to the one registered when workspaces are present. -/
theorem claim_C5_workspace_absence_degrades_only (st st' : BinderState)
    (hws : st.workspace_found = false) (htl : st.toplevel_found = true)
    (htl' : st'.toplevel_found = true) :
    (gldi_niri_toplevel_try_init st).1.success = true ∧
    (gldi_niri_toplevel_try_init st).1.workspaceManagerRegistered = false ∧
    (∃ b, (gldi_niri_toplevel_try_init st).1.registeredBackend = some b ∧
      b.flags &&& GLDI_WM_HAVE_WORKSPACES = 0 ∧
      b.flags &&& GLDI_WM_NO_VIEWPORT_OVERLAP ≠ 0 ∧
      b.flags &&& GLDI_WM_GEOM_REL_TO_VIEWPORT ≠ 0 ∧
      ∀ b', (gldi_niri_toplevel_try_init st').1.registeredBackend = some b' →
        backendOps b = backendOps b') := by
  unfold gldi_niri_toplevel_try_init
  simp only [htl, htl', hws]
  by_cases hws' : st'.workspace_found = true
  · simp [hws', GLDI_WM_HAVE_WORKSPACES, GLDI_WM_NO_VIEWPORT_OVERLAP,
      GLDI_WM_GEOM_REL_TO_VIEWPORT, backendOps]
    decide
  · simp [hws', GLDI_WM_HAVE_WORKSPACES, GLDI_WM_NO_VIEWPORT_OVERLAP,
      GLDI_WM_GEOM_REL_TO_VIEWPORT, backendOps]
    decide

/-- C5 witness: concrete binder states, one with only the toplevel
protocol and one with both. -/
theorem claim_C5_workspace_absence_degrades_only_witness :
    ({ initialBinderState with toplevel_found := true } : BinderState).workspace_found = false ∧
    ({ initialBinderState with toplevel_found := true } : BinderState).toplevel_found = true ∧
    ({ initialBinderState with toplevel_found := true, workspace_found := true } : BinderState).toplevel_found = true ∧
    ((gldi_niri_toplevel_try_init { initialBinderState with toplevel_found := true }).1.success = true ∧
     (gldi_niri_toplevel_try_init { initialBinderState with toplevel_found := true }).1.workspaceManagerRegistered = false ∧
     (∃ b, (gldi_niri_toplevel_try_init { initialBinderState with toplevel_found := true }).1.registeredBackend = some b ∧
       b.flags &&& GLDI_WM_HAVE_WORKSPACES = 0 ∧
       b.flags &&& GLDI_WM_NO_VIEWPORT_OVERLAP ≠ 0 ∧
       b.flags &&& GLDI_WM_GEOM_REL_TO_VIEWPORT ≠ 0 ∧
       ∀ b', (gldi_niri_toplevel_try_init
           { initialBinderState with toplevel_found := true, workspace_found := true }).1.registeredBackend = some b' →
         backendOps b = backendOps b')) :=
  ⟨rfl, rfl, rfl,
   claim_C5_workspace_absence_degrades_only _ _ rfl rfl rfl⟩

/-- C6: set-thumbnail-area is a silent no-op when the actor is null,
the container is null, the container has no GDK window, or the window
yields no surface; otherwise it issues exactly one set-rectangle request
on the actor's handle with exactly the given coordinates and surface. -/
theorem claim_C6_thumbnail_area_cases (x y w h : Int) :
    (∀ c, _set_thumbnail_area none c x y w h = some []) ∧
    (∀ a, _set_thumbnail_area a none x y w h = some []) ∧
    (∀ a, _set_thumbnail_area a (some { gdkWindow := none }) x y w h = some []) ∧
    (∀ a, _set_thumbnail_area a
      (some { gdkWindow := some { wlSurface := none } }) x y w h = some []) ∧
    (∀ (wa : GldiWaylandWindowActor) (hdl : Nat) (c : GldiContainer)
      (win : GdkWindow) (surf : Nat),
      wa.handle = some hdl → c.gdkWindow = some win → win.wlSurface = some surf →
      _set_thumbnail_area (some wa) (some c) x y w h =
        some [Request.setRectangle hdl surf x y w h]) := by
  refine ⟨?_, ?_, ?_, ?_, ?_⟩
  · intro c; cases c <;> rfl
  · intro a; cases a <;> rfl
  · intro a; cases a <;> rfl
  · intro a; cases a <;> rfl
  · intro wa hdl c win surf hwa hc hwin
    simp [_set_thumbnail_area, hc, hwin, hwa]

/-- C6 witness: with a resolvable surface the single set-rectangle
request carries the given coordinates. -/
theorem claim_C6_thumbnail_area_cases_witness :
    exampleActor.handle = some 42 ∧
    (GldiContainer.mk (some (GdkWindow.mk (some 9)))).gdkWindow = some (GdkWindow.mk (some 9)) ∧
    (GdkWindow.mk (some 9)).wlSurface = some 9 ∧
    _set_thumbnail_area (some exampleActor)
      (some (GldiContainer.mk (some (GdkWindow.mk (some 9))))) 1 2 3 4 =
      some [Request.setRectangle 42 9 1 2 3 4] :=
  ⟨rfl, rfl, rfl,
   (claim_C6_thumbnail_area_cases 1 2 3 4).2.2.2.2 exampleActor 42
     (GldiContainer.mk (some (GdkWindow.mk (some 9)))) (GdkWindow.mk (some 9)) 9
     rfl rfl rfl⟩

/-- C7 counterexample: the claim says each output of the capability
queries is written only when its pointer is provided, but
`_can_minimize_maximize_close` stores through all three out-pointers
unconditionally: with the minimize pointer absent (and the other two
provided) the call faults on the NULL store instead of skipping it. -/
theorem claim_C7_counterexample :
    _can_minimize_maximize_close false true true = Except.error () :=
  rfl

/-- C7 (amended): `_can_minimize_maximize_close` reports minimize,
maximize and close as supported (TRUE) but writes its three outputs
unconditionally — it completes only when all three pointers are
provided; `_get_supported_actions` writes each output only when its
pointer is provided, reporting fullscreen supported (TRUE) and sticky,
always-below, always-above and kill unsupported (FALSE). -/
theorem claim_C7_capability_reports :
    _can_minimize_maximize_close true true true =
      Except.ok (some true, some true, some true) ∧
    (∀ p1 p2 p3 : Bool, (p1 && p2 && p3) = false →
      _can_minimize_maximize_close p1 p2 p3 = Except.error ()) ∧
    (∀ pF pS pB pA pK : Bool,
      (_get_supported_actions pF pS pB pA pK).1 = (if pF then some true else none) ∧
      (_get_supported_actions pF pS pB pA pK).2.1 = (if pS then some false else none) ∧
      (_get_supported_actions pF pS pB pA pK).2.2.1 = (if pB then some false else none) ∧
      (_get_supported_actions pF pS pB pA pK).2.2.2.1 = (if pA then some false else none) ∧
      (_get_supported_actions pF pS pB pA pK).2.2.2.2 = (if pK then some false else none)) := by
  refine ⟨rfl, ?_, ?_⟩
  · intro p1 p2 p3 hp
    cases p1 <;> cases p2 <;> cases p3 <;> first | rfl | exact absurd hp (by decide)
  · decide

/-- C7 witness: the fault case evaluated with the minimize pointer
absent. -/
theorem claim_C7_capability_reports_witness :
    (false && true && true) = false ∧
    _can_minimize_maximize_close false true true = Except.error () :=
  ⟨by decide, claim_C7_capability_reports.2.1 false true true (by decide)⟩

/-- C8: the match step accepts exactly the two known interface names,
and for either protocol kind the version ultimately stored and passed to
the bind call is min(advertised version, locally supported maximum). -/
theorem claim_C8_match_and_min_version (st : BinderState) (id : Nat)
    (interface : String) (version : Nat) :
    ((gldi_niri_toplevel_match_protocol st id interface version).1 = true ↔
      interface = zwlr_foreign_toplevel_manager_v1_interface_name ∨
      interface = ext_workspace_manager_v1_interface_name) ∧
    (interface = zwlr_foreign_toplevel_manager_v1_interface_name →
      (gldi_niri_toplevel_try_init
          (gldi_niri_toplevel_match_protocol st id interface version).2).1.toplevelBound =
        some (id, min version zwlr_foreign_toplevel_manager_v1_interface_version) ∧
      (gldi_niri_toplevel_try_init
          (gldi_niri_toplevel_match_protocol st id interface version).2).2.toplevel_ver =
        min version zwlr_foreign_toplevel_manager_v1_interface_version) ∧
    (interface = ext_workspace_manager_v1_interface_name →
      st.toplevel_found = true →
      (gldi_niri_toplevel_try_init
          (gldi_niri_toplevel_match_protocol st id interface version).2).1.workspaceBound =
        some (id, min version ext_workspace_manager_v1_interface_version) ∧
      (gldi_niri_toplevel_try_init
          (gldi_niri_toplevel_match_protocol st id interface version).2).2.workspace_ver =
        min version ext_workspace_manager_v1_interface_version) := by
  refine ⟨?_, ?_, ?_⟩
  · constructor
    · intro h1
      by_contra hc
      push_neg at hc
      simp [gldi_niri_toplevel_match_protocol, hc.1, hc.2] at h1
    · rintro (h1 | h1) <;> simp [gldi_niri_toplevel_match_protocol, h1,
        zwlr_foreign_toplevel_manager_v1_interface_name,
        ext_workspace_manager_v1_interface_name]
  · intro h1
    subst h1
    simp only [gldi_niri_toplevel_match_protocol, if_pos rfl]
    unfold gldi_niri_toplevel_try_init
    by_cases hws : st.workspace_found = true <;>
      simp [hws]
  · intro h1 htl
    subst h1
    rw [gldi_niri_toplevel_match_protocol]
    rw [if_neg (by decide), if_pos rfl]
    unfold gldi_niri_toplevel_try_init
    simp [htl]

/-- C8 witness: a toplevel advertisement at version 5 is recorded and
bound at version min(5, 3) = 3. -/
theorem claim_C8_match_and_min_version_witness :
    (gldi_niri_toplevel_try_init
        (gldi_niri_toplevel_match_protocol initialBinderState 10
          "zwlr_foreign_toplevel_manager_v1" 5).2).1.toplevelBound = some (10, 3) ∧
    (gldi_niri_toplevel_try_init
        (gldi_niri_toplevel_match_protocol initialBinderState 10
          "zwlr_foreign_toplevel_manager_v1" 5).2).2.toplevel_ver = 3 := by
  have h := (claim_C8_match_and_min_version initialBinderState 10
    "zwlr_foreign_toplevel_manager_v1" 5).2.1 rfl
  simpa [zwlr_foreign_toplevel_manager_v1_interface_version] using h

/-- C9: move-to-workspace with a null actor, or with an actor whose
handle is null, issues no request at all (the operations are pure, so no
state is touched either). -/
theorem claim_C9_move_null_is_noop (seat : Nat) (n x y : Int) :
    _move_to_nth_desktop seat none n x y = [] ∧
    (∀ w : GldiWaylandWindowActor, w.handle = none →
      _move_to_nth_desktop seat (some w) n x y = []) := by
  refine ⟨rfl, ?_⟩
  intro w hw
  simp [_move_to_nth_desktop, _niri_move_window_to_workspace, hw]

/-- C9 witness: an actor with a null handle produces an empty request
trace. -/
theorem claim_C9_move_null_is_noop_witness :
    ({ exampleActor with handle := none } : GldiWaylandWindowActor).handle = none ∧
    _move_to_nth_desktop 7 (some { exampleActor with handle := none }) 2 5 6 = [] :=
  ⟨rfl, (claim_C9_move_null_is_noop 7 2 5 6).2 { exampleActor with handle := none } rfl⟩

/-- C10: the x and y arguments of move-to-nth-desktop never influence
its behavior: any two argument pairs produce identical request traces. -/
theorem claim_C10_move_ignores_xy (seat : Nat)
    (actor : Option GldiWaylandWindowActor) (n x y x' y' : Int) :
    _move_to_nth_desktop seat actor n x y = _move_to_nth_desktop seat actor n x' y' :=
  rfl

end NiriToplevel
